import Mathlib

/-!
Verification of the MAGI-1 front-end UI components (`VideoGenerator.js`,
`AIModal.js`) against their specification.

The components are embedded as an explicit state machine: the React
`useState` fields become a record, the browser timer table becomes a list
of live interval timers, and each user/network event steps the state and
emits the HTTP requests the code issues.  `useEffect` bodies are applied
at the state transitions that trigger them (their dependency arrays).
Closure captures are modeled explicitly: the tick callback handed to
`setInterval` captured the `taskId` of its creation render and a null
`statusInterval` (the creation guard ensures it), so the teardown in its
catch block never executes; and each run of the `[taskId]` effect
registers a cleanup capturing the `statusInterval` of that render, which
is what a later run clears.  Effects that re-run on every relevant state
change (`[taskStatus]`, `[provider]`) read fresh values.
-/

namespace MagiUI

/-- Video reference `{file_id, filename}` as returned by the backend
(upload response and `video_info` of a completed generation task). -/
structure VideoInfo where
  file_id : String
  filename : String
deriving DecidableEq

/-- Payload of `GET /api/video-generation-status/{task_id}`:
`{status, progress, video_info?, error?}`. -/
structure TaskStatus where
  status : String
  progress : Option ℚ
  video_info : Option VideoInfo
  error : Option String
deriving DecidableEq

/-- Provider-specific settings object, as a field-name/value list. -/
abbrev Settings := List (String × ℚ)

/-- Field `settingsTemplates.replicate` from VideoGenerator.js. -/
def replicateTemplate : Settings :=
  [("num_frames", 24), ("fps", 8), ("width", 576), ("height", 320),
   ("motion_bucket_id", 127)]

/-- Field `settingsTemplates.stability` from VideoGenerator.js. -/
def stabilityTemplate : Settings :=
  [("duration", 3), ("width", 768), ("height", 432), ("cfg_scale", 15/2)]

/-- Field `settingsTemplates.runway` from VideoGenerator.js. -/
def runwayTemplate : Settings :=
  [("num_steps", 50), ("fps", 24)]

/-- The `settingsTemplates` object, as a partial map from provider name. -/
def settingsTemplates (p : String) : Option Settings :=
  if p = "replicate" then some replicateTemplate
  else if p = "stability" then some stabilityTemplate
  else if p = "runway" then some runwayTemplate
  else none

/-- The `useState` fields of the `VideoGenerator` component.
`statusInterval` stores the interval handle recorded in state (which may
be stale: clearing a timer in an effect cleanup does not null the state). -/
structure CompState where
  prompt : String
  provider : String
  settings : Settings
  loading : Bool
  error : String
  taskId : Option String
  taskStatus : Option TaskStatus
  generatedVideo : Option VideoInfo
  statusInterval : Option Nat
deriving DecidableEq

/-- A scheduled interval timer: its handle and the `taskId` its tick
closure captured at the render where `setInterval` ran.  The closure also
captured the `statusInterval` of that render, which the creation guard
(`taskId && !statusInterval`) forces to be null — so it is not stored:
the tick always sees a null `statusInterval`. -/
structure Timer where
  handle : Nat
  tickTaskId : String
deriving DecidableEq

/-- Component state plus the browser timer table (`liveTimers`: the
timers actually scheduled, `nextHandle`: the next fresh handle) and
`cleanupCaptured`: the `statusInterval` value captured by the currently
registered cleanup of the `[taskId]` effect — the value of the render in
which that effect last ran, not the current state. -/
structure World where
  comp : CompState
  liveTimers : List Timer
  cleanupCaptured : Option Nat
  nextHandle : Nat
deriving DecidableEq

/-- HTTP requests issued by `VideoGenerator`. -/
inductive Request where
  | generateVideo (prompt provider : String) (settings : Settings)
  | getStatus (task_id : String)
deriving DecidableEq

/-- Browser `clearInterval(h)`: unschedule the timer with that handle
(a no-op when no such timer is live). -/
def removeTimer (l : List Timer) (h : Nat) : List Timer :=
  l.filter (fun t => t.handle ≠ h)

/-- The `useEffect` with dependency `[taskId]`, run when `taskId` changed:
first the previously registered cleanup runs — `clearInterval` on the
`statusInterval` handle it captured in the render of its own run (not the
current value).  Then the body reads the current render: when a task id
is set and no interval is recorded in state, `setInterval` schedules a
fresh timer whose tick closure captures this taskId (and the null
`statusInterval`), and the handle is stored in state.  Finally the newly
registered cleanup captures the `statusInterval` of this render (the
value before the set in the body). -/
def taskIdEffect (w : World) : World :=
  let w1 :=
    match w.cleanupCaptured with
    | some h => { w with liveTimers := removeTimer w.liveTimers h }
    | none => w
  let captured := w1.comp.statusInterval
  let w2 :=
    match w1.comp.taskId, w1.comp.statusInterval with
    | some tid, none =>
        { w1 with comp := { w1.comp with statusInterval := some w1.nextHandle },
                  liveTimers := ⟨w1.nextHandle, tid⟩ :: w1.liveTimers,
                  nextHandle := w1.nextHandle + 1 }
    | _, _ => w1
  { w2 with cleanupCaptured := captured }

/-- The `useEffect` with dependency `[taskStatus]`: it re-runs on every
status change with a fresh closure, so it reads the current
`statusInterval`.  On a terminal status (`completed` or `failed`) it
clears the recorded interval and nulls it in state; on `completed` with
`video_info`, it copies the info into `generatedVideo`. -/
def taskStatusEffect (w : World) : World :=
  match w.comp.taskStatus with
  | none => w
  | some ts =>
    if ts.status = "completed" ∨ ts.status = "failed" then
      let w1 :=
        match w.comp.statusInterval with
        | some h =>
            { w with comp := { w.comp with statusInterval := none },
                     liveTimers := removeTimer w.liveTimers h }
        | none => w
      if ts.status = "completed" then
        match ts.video_info with
        | some vi => { w1 with comp := { w1.comp with generatedVideo := some vi } }
        | none => w1
      else w1
    else w

/-- Handler `checkTaskStatus` as executed by a timer tick: its closure
captured the creation render, so the `taskId` it reads is `t.tickTaskId`
(non-null — the `if (!taskId) return` guard never fires for a tick) and
the `statusInterval` it reads is null.  It issues
`GET /api/video-generation-status/{task_id}` for the captured id.  On a
successful response it stores the payload in `taskStatus` (triggering the
terminal-status effect).  On a request error it sets the error message;
the `if (statusInterval)` teardown in the catch tests the captured null,
so it never runs and the timer stays live. -/
def checkTaskStatus (w : World) (t : Timer) (resp : Except Unit TaskStatus) :
    World × List Request :=
  match resp with
  | .ok data =>
      let w1 := { w with comp := { w.comp with taskStatus := some data } }
      (taskStatusEffect w1, [Request.getStatus t.tickTaskId])
  | .error _ =>
      ({ w with comp :=
          { w.comp with
            error := "Erreur lors de la vérification du statut de la génération" } },
       [Request.getStatus t.tickTaskId])

/-- JS truthiness of `prompt.trim()`, negated: `!prompt.trim()` is true
iff every character of the prompt is whitespace. -/
def jsTrimEmpty (s : String) : Bool :=
  s.data.all (fun c => c.isWhitespace)

/-- JS `String.prototype.startsWith` on the character sequence. -/
def jsStartsWith (s pre : String) : Bool :=
  pre.data.isPrefixOf s.data

/-- JS `x || fallback` on an optional string field: the fallback is used
when the field is absent or the empty string (both falsy). -/
def jsStringOr (d : Option String) (fb : String) : String :=
  match d with
  | some s => if s = "" then fb else s
  | none => fb

/-- The batched state updates of `handleGenerateVideo` that precede the
POST: set `loading`, clear `error`, `taskId`, `taskStatus` and
`generatedVideo`; the `[taskId]` effect then fires when `taskId` actually
changed (the `[taskStatus]` effect body is a no-op on `null`). -/
def submitPhase1 (w : World) : World :=
  let prevTaskId := w.comp.taskId
  let w1 := { w with comp :=
    { w.comp with loading := true, error := "", taskId := none,
                  taskStatus := none, generatedVideo := none } }
  match prevTaskId with
  | some _ => taskIdEffect w1
  | none => w1

/-- Handler `handleGenerateVideo`: reject a blank prompt with a message and no
request; otherwise clear prior task state, POST `/api/generate-video`,
and on success store the returned task id (starting the poll timer via
the `[taskId]` effect); on request failure show the server detail or a
fallback and reset `loading`. -/
def handleGenerateVideo (w : World) (resp : Except (Option String) String) :
    World × List Request :=
  if jsTrimEmpty w.comp.prompt then
    ({ w with comp :=
        { w.comp with error := "Veuillez entrer une description pour la vidéo" } },
     [])
  else
    let w1 := submitPhase1 w
    let req := Request.generateVideo w1.comp.prompt w1.comp.provider w1.comp.settings
    match resp with
    | .ok tid =>
        let w2 := { w1 with comp := { w1.comp with taskId := some tid } }
        (taskIdEffect w2, [req])
    | .error detail =>
        ({ w1 with comp :=
            { w1.comp with
              error := "Erreur: " ++
                jsStringOr detail "Impossible de communiquer avec le serveur",
              loading := false } },
         [req])

/-- The provider `<select>` change handler plus the `useEffect` with
dependency `[provider]`: on an actual change, replace `settings` by the
template of the selected provider (falling back to the replicate template). -/
def handleProviderChange (w : World) (p : String) : World :=
  if p = w.comp.provider then w
  else
    { w with comp :=
        { w.comp with provider := p,
                      settings := (settingsTemplates p).getD replicateTemplate } }

/-- Handler `updateSetting`: JS object spread `{...settings, [key]: value}` on the
field list — replace in place when the key exists, append otherwise. -/
def updateSetting (w : World) (key : String) (v : ℚ) : World :=
  let s := w.comp.settings
  let s' :=
    if s.any (fun kv => kv.1 = key) then
      s.map (fun kv => if kv.1 = key then (key, v) else kv)
    else s ++ [(key, v)]
  { w with comp := { w.comp with settings := s' } }

/-- Events driving the `VideoGenerator` state machine: a form submission
together with the outcome of its POST, a poll-timer tick together with
the outcome of its GET, and the input-widget handlers. -/
inductive Event where
  | submit (resp : Except (Option String) String)
  | poll (resp : Except Unit TaskStatus)
  | changeProvider (p : String)
  | changePrompt (p : String)
  | editSetting (key : String) (v : ℚ)

/-- One step of the component: a poll tick only fires when some timer is
actually live in the browser timer table, and runs the tick closure of
the (head) live timer — at most one timer is ever live in reachable
states, as proved below. -/
def step (w : World) (e : Event) : World × List Request :=
  match e with
  | .submit resp => handleGenerateVideo w resp
  | .poll resp =>
      match w.liveTimers with
      | [] => (w, [])
      | t :: _ => checkTaskStatus w t resp
  | .changeProvider p => (handleProviderChange w p, [])
  | .changePrompt p => ({ w with comp := { w.comp with prompt := p } }, [])
  | .editSetting k v => (updateSetting w k v, [])

/-- Run a sequence of events, accumulating the issued requests. -/
def runTrace (w : World) : List Event → World × List Request
  | [] => (w, [])
  | e :: es =>
      let p := step w e
      let q := runTrace p.1 es
      (q.1, p.2 ++ q.2)

/-- The component state right after mount (the `useState` initials). -/
def initComp : CompState :=
  { prompt := "", provider := "replicate", settings := replicateTemplate,
    loading := false, error := "", taskId := none, taskStatus := none,
    generatedVideo := none, statusInterval := none }

/-- Freshly mounted component: empty timer table, and the `[taskId]`
effect has run once on mount, registering a cleanup that captured the
initial null `statusInterval`. -/
def initWorld : World :=
  { comp := initComp, liveTimers := [], cleanupCaptured := none,
    nextHandle := 0 }

/-- States reachable from a fresh mount by some event sequence. -/
def Reachable (w : World) : Prop :=
  ∃ evs : List Event, (runTrace initWorld evs).1 = w

/-- The error paragraph of `renderGenerationStatus`: rendered only when a
task id and status are present, the status is `failed`, and the `error`
field is truthy. -/
def renderFailedError (s : CompState) : Option String :=
  match s.taskId, s.taskStatus with
  | some _, some ts =>
      if ts.status = "failed" then
        match ts.error with
        | some e => if e = "" then none else some ("Erreur: " ++ e)
        | none => none
      else none
  | _, _ => none

/-- The video id handed to `VideoViewer` when a generated video is rendered. -/
def renderedVideoId (s : CompState) : Option String :=
  s.generatedVideo.map (fun vi => vi.file_id)

/-- The error box `{error && <div>{error}</div>}`. -/
def renderErrorBox (s : CompState) : Option String :=
  if s.error = "" then none else some s.error

/-- The generate button attribute `disabled={loading || !prompt.trim()}`. -/
def generateButtonDisabled (s : CompState) : Bool :=
  s.loading || jsTrimEmpty s.prompt

/-- The prompt textarea / provider select / settings inputs are all
`disabled={loading}`. -/
def generateInputsDisabled (s : CompState) : Bool :=
  s.loading

/-- The `useState` fields of the `AIModal` component. -/
structure ModalState where
  prompt : String
  response : String
  loading : Bool
  error : String
  provider : String
  video : Option VideoInfo
  showVideoViewer : Bool
deriving DecidableEq

/-- HTTP requests issued by `AIModal`. -/
inductive ModalRequest where
  | process (prompt provider : String)
  | analyzeVideo (video_id prompt provider : String)
  | uploadVideo (filename : String)
deriving DecidableEq

/-- Handler `AIModal.handleSubmit`: return silently on a blank prompt; otherwise
POST `/api/process` (or `/api/analyze-video` when a video is attached),
display the result, or on failure the server detail / a fallback; the
`finally` block resets `loading`. -/
def modalHandleSubmit (s : ModalState) (resp : Except (Option String) String) :
    ModalState × List ModalRequest :=
  if jsTrimEmpty s.prompt then (s, [])
  else
    let s1 := { s with loading := true, error := "" }
    let req :=
      match s1.video with
      | some v => ModalRequest.analyzeVideo v.file_id s1.prompt s1.provider
      | none => ModalRequest.process s1.prompt s1.provider
    match resp with
    | .ok result => ({ s1 with response := result, loading := false }, [req])
    | .error detail =>
        ({ s1 with
            error := "Erreur: " ++
              jsStringOr detail "Communication avec l\u0027API impossible",
            loading := false },
         [req])

/-- A file from the file input as the handler sees it: a name and a
declared MIME type. -/
structure JSFile where
  name : String
  type : String
deriving DecidableEq

/-- Handler `AIModal.handleVideoUpload`: return when no file is selected; reject
any file whose declared type does not start with `video/` with a
validation message and no request; otherwise POST the multipart upload
and store the returned reference, or show an upload error. -/
def modalHandleVideoUpload (s : ModalState) (file : Option JSFile)
    (resp : Except Unit VideoInfo) : ModalState × List ModalRequest :=
  match file with
  | none => (s, [])
  | some f =>
    if ¬ jsStartsWith f.type "video/" then
      ({ s with error := "Veuillez sélectionner un fichier vidéo valide." }, [])
    else
      let s1 := { s with loading := true, error := "" }
      match resp with
      | .ok data =>
          ({ s1 with video := some data, showVideoViewer := true,
                     loading := false },
           [ModalRequest.uploadVideo f.name])
      | .error _ =>
          ({ s1 with
              error := "Erreur lors de l\u0027upload de la vidéo. Veuillez réessayer.",
              loading := false },
           [ModalRequest.uploadVideo f.name])

/-- The error box of the modal `{error && <div>{error}</div>}`. -/
def modalRenderErrorBox (s : ModalState) : Option String :=
  if s.error = "" then none else some s.error

/-- A submission event (of any network outcome). -/
def Event.isSubmit : Event → Bool
  | .submit _ => true
  | _ => false

/-- A submission event whose POST failed (the only code path that resets
`loading`). -/
def submitFailed : Event → Bool
  | .submit (.error _) => true
  | _ => false

/-- Timer-table coherence relating a recorded interval value to a timer
table: with no recorded interval no timer is live, and with a recorded
handle the table is empty or the single timer with that handle. -/
def TimersOk (si : Option Nat) (lt : List Timer) : Prop :=
  (si = none → lt = []) ∧
  (∀ h, si = some h → lt = [] ∨ ∃ t : Timer, t.handle = h ∧ lt = [t])

/-- The browser timer table is tracked by the `statusInterval` state. -/
def TimersTracked (w : World) : Prop :=
  TimersOk w.comp.statusInterval w.liveTimers

/-- Once a terminal task status is stored in state, no interval handle is
recorded any more. -/
def TerminalStopped (w : World) : Prop :=
  ∀ ts, w.comp.taskStatus = some ts →
    ts.status = "completed" ∨ ts.status = "failed" →
    w.comp.statusInterval = none

/-- The inductive invariant of the `VideoGenerator` state machine. -/
def Inv (w : World) : Prop := TimersTracked w ∧ TerminalStopped w

theorem removeTimer_singleton (t : Timer) (h : Nat) :
    removeTimer [t] h = [] ∨ removeTimer [t] h = [t] := by
  unfold removeTimer
  by_cases hh : t.handle = h <;> simp [hh]

theorem timersOk_nil : TimersOk none [] :=
  ⟨fun _ => rfl, fun h heq => by simp at heq⟩

theorem timersOk_single (h : Nat) (tid : String) :
    TimersOk (some h) [⟨h, tid⟩] := by
  refine ⟨fun hc => by simp at hc, fun h' heq => Or.inr ⟨⟨h, tid⟩, ?_, rfl⟩⟩
  injection heq with hh

theorem timersOk_remove (si : Option Nat) (lt : List Timer) (hc : Nat)
    (hok : TimersOk si lt) : TimersOk si (removeTimer lt hc) := by
  obtain ⟨h1, h2⟩ := hok
  constructor
  · intro hn
    rw [h1 hn]
    rfl
  · intro h heq
    rcases h2 h heq with hl | ⟨t, ht, hl⟩
    · rw [hl]
      exact Or.inl rfl
    · rw [hl]
      rcases removeTimer_singleton t hc with hr | hr
      · exact Or.inl hr
      · exact Or.inr ⟨t, ht, hr⟩

theorem timersOk_clear_recorded (si : Option Nat) (lt : List Timer) (h0 : Nat)
    (hok : TimersOk si lt) (hsi : si = some h0) : removeTimer lt h0 = [] := by
  rcases hok.2 h0 hsi with hl | ⟨t, ht, hl⟩
  · rw [hl]
    rfl
  · rw [hl]
    unfold removeTimer
    simp [ht]

theorem taskIdEffect_comp_taskStatus (w : World) :
    (taskIdEffect w).comp.taskStatus = w.comp.taskStatus := by
  unfold taskIdEffect
  rcases hcc : w.cleanupCaptured with _ | hc <;>
    rcases htid : w.comp.taskId with _ | t <;>
    rcases hsi : w.comp.statusInterval with _ | h0 <;>
    simp [hcc, htid, hsi]

theorem taskIdEffect_comp_loading (w : World) :
    (taskIdEffect w).comp.loading = w.comp.loading := by
  unfold taskIdEffect
  rcases hcc : w.cleanupCaptured with _ | hc <;>
    rcases htid : w.comp.taskId with _ | t <;>
    rcases hsi : w.comp.statusInterval with _ | h0 <;>
    simp [hcc, htid, hsi]

theorem taskIdEffect_comp_taskId (w : World) :
    (taskIdEffect w).comp.taskId = w.comp.taskId := by
  unfold taskIdEffect
  rcases hcc : w.cleanupCaptured with _ | hc <;>
    rcases htid : w.comp.taskId with _ | t <;>
    rcases hsi : w.comp.statusInterval with _ | h0 <;>
    simp [hcc, htid, hsi]

theorem taskIdEffect_comp_generatedVideo (w : World) :
    (taskIdEffect w).comp.generatedVideo = w.comp.generatedVideo := by
  unfold taskIdEffect
  rcases hcc : w.cleanupCaptured with _ | hc <;>
    rcases htid : w.comp.taskId with _ | t <;>
    rcases hsi : w.comp.statusInterval with _ | h0 <;>
    simp [hcc, htid, hsi]

theorem taskIdEffect_comp_prompt (w : World) :
    (taskIdEffect w).comp.prompt = w.comp.prompt := by
  unfold taskIdEffect
  rcases hcc : w.cleanupCaptured with _ | hc <;>
    rcases htid : w.comp.taskId with _ | t <;>
    rcases hsi : w.comp.statusInterval with _ | h0 <;>
    simp [hcc, htid, hsi]

theorem taskIdEffect_comp_provider (w : World) :
    (taskIdEffect w).comp.provider = w.comp.provider := by
  unfold taskIdEffect
  rcases hcc : w.cleanupCaptured with _ | hc <;>
    rcases htid : w.comp.taskId with _ | t <;>
    rcases hsi : w.comp.statusInterval with _ | h0 <;>
    simp [hcc, htid, hsi]

theorem taskIdEffect_comp_settings (w : World) :
    (taskIdEffect w).comp.settings = w.comp.settings := by
  unfold taskIdEffect
  rcases hcc : w.cleanupCaptured with _ | hc <;>
    rcases htid : w.comp.taskId with _ | t <;>
    rcases hsi : w.comp.statusInterval with _ | h0 <;>
    simp [hcc, htid, hsi]

theorem taskStatusEffect_comp_taskStatus (w : World) :
    (taskStatusEffect w).comp.taskStatus = w.comp.taskStatus := by
  unfold taskStatusEffect
  rcases hts : w.comp.taskStatus with _ | ts
  · simp [hts]
  · by_cases hc : ts.status = "completed" <;> by_cases hf : ts.status = "failed" <;>
      rcases hsi : w.comp.statusInterval with _ | h <;>
      rcases hvi : ts.video_info with _ | vi <;>
      simp [hts, hsi, hvi, hc, hf]

theorem taskStatusEffect_comp_loading (w : World) :
    (taskStatusEffect w).comp.loading = w.comp.loading := by
  unfold taskStatusEffect
  rcases hts : w.comp.taskStatus with _ | ts
  · simp [hts]
  · by_cases hc : ts.status = "completed" <;> by_cases hf : ts.status = "failed" <;>
      rcases hsi : w.comp.statusInterval with _ | h <;>
      rcases hvi : ts.video_info with _ | vi <;>
      simp [hts, hsi, hvi, hc, hf]

theorem taskStatusEffect_comp_taskId (w : World) :
    (taskStatusEffect w).comp.taskId = w.comp.taskId := by
  unfold taskStatusEffect
  rcases hts : w.comp.taskStatus with _ | ts
  · simp [hts]
  · by_cases hc : ts.status = "completed" <;> by_cases hf : ts.status = "failed" <;>
      rcases hsi : w.comp.statusInterval with _ | h <;>
      rcases hvi : ts.video_info with _ | vi <;>
      simp [hts, hsi, hvi, hc, hf]

theorem timersTracked_taskIdEffect (w : World) (hw : TimersTracked w) :
    TimersTracked (taskIdEffect w) := by
  unfold TimersTracked at hw ⊢
  unfold taskIdEffect
  rcases hcc : w.cleanupCaptured with _ | hc
  · rcases htid : w.comp.taskId with _ | tid <;>
      rcases hsi : w.comp.statusInterval with _ | h0
    · simpa [hcc, htid, hsi] using hw
    · simpa [hcc, htid, hsi] using hw
    · have hnil : w.liveTimers = [] := hw.1 hsi
      simp only [hcc, htid, hsi]
      simpa [hcc, htid, hsi, hnil] using timersOk_single w.nextHandle tid
    · simpa [hcc, htid, hsi] using hw
  · have hrem : TimersOk w.comp.statusInterval (removeTimer w.liveTimers hc) :=
      timersOk_remove _ _ hc hw
    rcases htid : w.comp.taskId with _ | tid <;>
      rcases hsi : w.comp.statusInterval with _ | h0
    · simpa [hcc, htid, hsi] using hrem
    · simpa [hcc, htid, hsi] using hrem
    · have hnil : removeTimer w.liveTimers hc = [] := by
        rw [hw.1 hsi]
        rfl
      simp only [hcc, htid, hsi]
      simpa [hcc, htid, hsi, hnil] using timersOk_single w.nextHandle tid
    · simpa [hcc, htid, hsi] using hrem

theorem timersTracked_taskStatusEffect (w : World) (hw : TimersTracked w) :
    TimersTracked (taskStatusEffect w) := by
  unfold TimersTracked at hw ⊢
  unfold taskStatusEffect
  rcases hts : w.comp.taskStatus with _ | ts
  · simpa [hts] using hw
  · by_cases hcf : ts.status = "completed" ∨ ts.status = "failed"
    · by_cases hc : ts.status = "completed"
      · rcases hsi : w.comp.statusInterval with _ | h0
        · rcases hvi : ts.video_info with _ | vi <;>
            simpa [hts, hsi, hvi, hcf, hc] using hw
        · have hnil := timersOk_clear_recorded _ _ h0 hw hsi
          rcases hvi : ts.video_info with _ | vi <;>
            simp [hts, hsi, hvi, hcf, hc, hnil, timersOk_nil]
      · have hf : ts.status = "failed" := hcf.resolve_left hc
        rcases hsi : w.comp.statusInterval with _ | h0
        · simpa [hts, hsi, hc, hf] using hw
        · have hnil := timersOk_clear_recorded _ _ h0 hw hsi
          simp [hts, hsi, hc, hf, hnil, timersOk_nil]
    · simpa [hts, hcf] using hw

theorem terminalStopped_taskStatusEffect (w : World) :
    TerminalStopped (taskStatusEffect w) := by
  intro ts hts hterm
  rw [taskStatusEffect_comp_taskStatus] at hts
  unfold taskStatusEffect
  by_cases hc : ts.status = "completed"
  · rcases hsi : w.comp.statusInterval with _ | h <;>
      rcases hvi : ts.video_info with _ | vi <;> simp [hts, hsi, hvi, hc]
  · have hf : ts.status = "failed" := hterm.resolve_left hc
    rcases hsi : w.comp.statusInterval with _ | h <;> simp [hts, hsi, hc, hf]

theorem timersTracked_of_eq (w w' : World)
    (hsi : w'.comp.statusInterval = w.comp.statusInterval)
    (hlt : w'.liveTimers = w.liveTimers) (hw : TimersTracked w) :
    TimersTracked w' := by
  unfold TimersTracked at *
  rw [hsi, hlt]
  exact hw

theorem terminalStopped_of_eq (w w' : World)
    (hts : w'.comp.taskStatus = w.comp.taskStatus)
    (hsi : w'.comp.statusInterval = w.comp.statusInterval)
    (hw : TerminalStopped w) : TerminalStopped w' := by
  unfold TerminalStopped at *
  rw [hts, hsi]
  exact hw

theorem submitPhase1_comp_taskId (w : World) :
    (submitPhase1 w).comp.taskId = none := by
  unfold submitPhase1
  rcases htid : w.comp.taskId with _ | t
  · simp
  · rw [taskIdEffect_comp_taskId]

theorem submitPhase1_comp_taskStatus (w : World) :
    (submitPhase1 w).comp.taskStatus = none := by
  unfold submitPhase1
  rcases htid : w.comp.taskId with _ | t
  · simp
  · rw [taskIdEffect_comp_taskStatus]

theorem submitPhase1_comp_generatedVideo (w : World) :
    (submitPhase1 w).comp.generatedVideo = none := by
  unfold submitPhase1
  rcases htid : w.comp.taskId with _ | t
  · simp
  · rw [taskIdEffect_comp_generatedVideo]

theorem submitPhase1_comp_loading (w : World) :
    (submitPhase1 w).comp.loading = true := by
  unfold submitPhase1
  rcases htid : w.comp.taskId with _ | t
  · simp
  · rw [taskIdEffect_comp_loading]

theorem submitPhase1_comp_prompt (w : World) :
    (submitPhase1 w).comp.prompt = w.comp.prompt := by
  unfold submitPhase1
  rcases htid : w.comp.taskId with _ | t
  · simp
  · rw [taskIdEffect_comp_prompt]

theorem submitPhase1_comp_provider (w : World) :
    (submitPhase1 w).comp.provider = w.comp.provider := by
  unfold submitPhase1
  rcases htid : w.comp.taskId with _ | t
  · simp
  · rw [taskIdEffect_comp_provider]

theorem submitPhase1_comp_settings (w : World) :
    (submitPhase1 w).comp.settings = w.comp.settings := by
  unfold submitPhase1
  rcases htid : w.comp.taskId with _ | t
  · simp
  · rw [taskIdEffect_comp_settings]

theorem timersTracked_submitPhase1 (w : World) (hw : TimersTracked w) :
    TimersTracked (submitPhase1 w) := by
  unfold submitPhase1
  rcases htid : w.comp.taskId with _ | t
  · exact timersTracked_of_eq w _ (by simp) (by simp) hw
  · exact timersTracked_taskIdEffect _ (timersTracked_of_eq w _ (by simp) (by simp) hw)

theorem inv_checkTaskStatus (w : World) (t : Timer) (resp : Except Unit TaskStatus)
    (hw : Inv w) : Inv (checkTaskStatus w t resp).1 := by
  rcases resp with e | data
  · constructor
    · exact timersTracked_of_eq w _ (by simp [checkTaskStatus])
        (by simp [checkTaskStatus]) hw.1
    · exact terminalStopped_of_eq w _ (by simp [checkTaskStatus])
        (by simp [checkTaskStatus]) hw.2
  · have h1 : TimersTracked { w with comp := { w.comp with taskStatus := some data } } :=
      timersTracked_of_eq w _ (by simp) (by simp) hw.1
    constructor
    · simpa [checkTaskStatus] using timersTracked_taskStatusEffect _ h1
    · simpa [checkTaskStatus] using terminalStopped_taskStatusEffect _

theorem inv_handleGenerateVideo (w : World) (resp : Except (Option String) String)
    (hw : Inv w) : Inv (handleGenerateVideo w resp).1 := by
  unfold handleGenerateVideo
  by_cases hp : jsTrimEmpty w.comp.prompt
  · constructor
    · exact timersTracked_of_eq w _ (by simp [hp]) (by simp [hp]) hw.1
    · exact terminalStopped_of_eq w _ (by simp [hp]) (by simp [hp]) hw.2
  · have h1 : TimersTracked (submitPhase1 w) := timersTracked_submitPhase1 w hw.1
    rcases resp with d | tid
    · constructor
      · refine timersTracked_of_eq (submitPhase1 w) _ ?_ ?_ h1 <;> simp [hp]
      · intro ts hts hterm
        simp [hp, submitPhase1_comp_taskStatus] at hts
    · have h2 : TimersTracked { submitPhase1 w with comp :=
          { (submitPhase1 w).comp with taskId := some tid } } :=
        timersTracked_of_eq (submitPhase1 w) _ (by simp) (by simp) h1
      constructor
      · simpa [hp] using timersTracked_taskIdEffect _ h2
      · intro ts hts hterm
        simp only [hp, Bool.false_eq_true, if_false] at hts
        rw [taskIdEffect_comp_taskStatus] at hts
        simp [submitPhase1_comp_taskStatus] at hts

theorem inv_step (w : World) (e : Event) (hw : Inv w) : Inv (step w e).1 := by
  cases e with
  | submit resp => exact inv_handleGenerateVideo w resp hw
  | poll resp =>
    unfold step
    rcases hl : w.liveTimers with _ | ⟨t, rest⟩
    · simpa [hl] using hw
    · simpa [hl] using inv_checkTaskStatus w t resp hw
  | changeProvider p =>
    unfold step handleProviderChange
    by_cases hp : p = w.comp.provider
    · simpa [hp] using hw
    · constructor
      · refine timersTracked_of_eq w _ ?_ ?_ hw.1 <;> simp [hp]
      · refine terminalStopped_of_eq w _ ?_ ?_ hw.2 <;> simp [hp]
  | changePrompt p =>
    constructor
    · refine timersTracked_of_eq w _ ?_ ?_ hw.1 <;> simp [step]
    · refine terminalStopped_of_eq w _ ?_ ?_ hw.2 <;> simp [step]
  | editSetting k v =>
    constructor
    · refine timersTracked_of_eq w _ ?_ ?_ hw.1 <;> simp [step, updateSetting]
    · refine terminalStopped_of_eq w _ ?_ ?_ hw.2 <;> simp [step, updateSetting]

theorem inv_runTrace (evs : List Event) : ∀ w : World, Inv w → Inv (runTrace w evs).1 := by
  induction evs with
  | nil => intro w hw; simpa [runTrace] using hw
  | cons e es ih =>
    intro w hw
    simpa [runTrace] using ih (step w e).1 (inv_step w e hw)

theorem inv_initWorld : Inv initWorld := by
  constructor
  · exact ⟨fun _ => rfl, fun h h' => by simp [initWorld, initComp] at h'⟩
  · intro ts hts hterm
    simp [initWorld, initComp] at hts

theorem reachable_inv (w : World) (hr : Reachable w) : Inv w := by
  obtain ⟨evs, h⟩ := hr
  exact h ▸ inv_runTrace evs initWorld inv_initWorld

theorem step_quiescent (w : World) (e : Event) (he : Event.isSubmit e = false)
    (hl : w.liveTimers = []) :
    (step w e).1.liveTimers = [] ∧ (step w e).2 = [] := by
  cases e with
  | submit resp => simp [Event.isSubmit] at he
  | poll resp => simp [step, hl]
  | changeProvider p =>
    unfold step handleProviderChange
    by_cases hp : p = w.comp.provider <;> simp [hp, hl]
  | changePrompt p => simp [step, hl]
  | editSetting k v => simp [step, updateSetting, hl]

theorem runTrace_quiescent (evs : List Event) : ∀ w : World,
    evs.all (fun e => !e.isSubmit) = true → w.liveTimers = [] →
    (runTrace w evs).1.liveTimers = [] ∧ (runTrace w evs).2 = [] := by
  induction evs with
  | nil => intro w _ hl; simpa [runTrace] using hl
  | cons e es ih =>
    intro w hall hl
    simp only [List.all_cons, Bool.and_eq_true, Bool.not_eq_true'] at hall
    obtain ⟨he, hes⟩ := hall
    obtain ⟨hl1, hr1⟩ := step_quiescent w e he hl
    obtain ⟨hl2, hr2⟩ := ih (step w e).1 hes hl1
    constructor
    · simpa [runTrace] using hl2
    · simp [runTrace, hr1, hr2]

theorem step_loading_preserved (w : World) (e : Event) (he : submitFailed e = false)
    (hl : w.comp.loading = true) : (step w e).1.comp.loading = true := by
  cases e with
  | submit resp =>
    rcases resp with d | tid
    · simp [submitFailed] at he
    · unfold step handleGenerateVideo
      by_cases hp : jsTrimEmpty w.comp.prompt
      · simp [hp, hl]
      · simp only [hp, Bool.false_eq_true, if_false]
        rw [taskIdEffect_comp_loading]
        simp [submitPhase1_comp_loading]
  | poll resp =>
    unfold step
    rcases hlt : w.liveTimers with _ | ⟨t, rest⟩
    · simpa [hlt] using hl
    · rcases resp with err | data
      · simpa [hlt, checkTaskStatus] using hl
      · simp only [hlt, checkTaskStatus]
        rw [taskStatusEffect_comp_loading]
        simpa using hl
  | changeProvider p =>
    unfold step handleProviderChange
    by_cases hp : p = w.comp.provider <;> simp [hp, hl]
  | changePrompt p => simp [step, hl]
  | editSetting k v => simp [step, updateSetting, hl]

theorem runTrace_loading_preserved (evs : List Event) : ∀ w : World,
    evs.all (fun e => !submitFailed e) = true → w.comp.loading = true →
    (runTrace w evs).1.comp.loading = true := by
  induction evs with
  | nil => intro w _ hl; simpa [runTrace] using hl
  | cons e es ih =>
    intro w hall hl
    simp only [List.all_cons, Bool.and_eq_true, Bool.not_eq_true'] at hall
    obtain ⟨he, hes⟩ := hall
    simpa [runTrace] using ih (step w e).1 hes (step_loading_preserved w e he hl)

theorem string_append_ne_empty (s t : String) (hs : s ≠ "") : s ++ t ≠ "" := by
  intro h
  apply hs
  have hd := congrArg String.data h
  rw [String.data_append] at hd
  exact String.ext (List.append_eq_nil.mp hd).1

/-- The modal state right after mount (the `useState` initials of AIModal). -/
def modalInit : ModalState :=
  { prompt := "", response := "", loading := false, error := "",
    provider := "openai", video := none, showVideoViewer := false }

/-! ### The claims -/

/-- C1: in every reachable `VideoGenerator` state in which a polled
terminal task status (`completed` or `failed`) has been applied to
component state, the poll timer has been cleared (no interval handle is
live), and — as long as no new submission occurs — no further requests at
all, in particular no GET of the status endpoint, are issued. -/
theorem C1_terminal_stops_polling (w : World) (hr : Reachable w) (ts : TaskStatus)
    (hts : w.comp.taskStatus = some ts)
    (hterm : ts.status = "completed" ∨ ts.status = "failed") :
    w.liveTimers = [] ∧
    ∀ evs : List Event, evs.all (fun e => !e.isSubmit) = true →
      (runTrace w evs).2 = [] := by
  have hinv := reachable_inv w hr
  have hsi := hinv.2 ts hts hterm
  have hl : w.liveTimers = [] := hinv.1.1 hsi
  exact ⟨hl, fun evs hall => (runTrace_quiescent evs w hall hl).2⟩

/-- A concrete run used to instantiate C1: submission, a successful
poll, a poll transport error (after which the timer survives and polling
continues), then a terminal `failed` status. -/
def c1Events : List Event :=
  [Event.changePrompt "un chien qui danse",
   Event.submit (Except.ok "t9"),
   Event.poll (Except.ok ⟨"running", some (1/2), none, none⟩),
   Event.poll (Except.error ()),
   Event.poll (Except.ok ⟨"failed", none, none, some "quota exceeded"⟩)]

theorem C1_terminal_stops_polling_witness :
    (runTrace initWorld c1Events).1.liveTimers = [] ∧
    (runTrace (runTrace initWorld c1Events).1
      [Event.poll (Except.error ()), Event.changeProvider "runway",
       Event.poll (Except.ok ⟨"running", none, none, none⟩)]).2 = [] := by
  have h := C1_terminal_stops_polling (runTrace initWorld c1Events).1
    ⟨c1Events, rfl⟩ ⟨"failed", none, none, some "quota exceeded"⟩
    (by decide) (by decide)
  exact ⟨h.1, h.2 _ (by decide)⟩

/-- C2: in every reachable `VideoGenerator` state — across any sequence
of submissions and poll responses, including a resubmission while a
previous task is still polling — at most one poll timer is live. -/
theorem C2_at_most_one_timer (w : World) (hr : Reachable w) :
    w.liveTimers.length ≤ 1 := by
  have hinv := reachable_inv w hr
  rcases hsi : w.comp.statusInterval with _ | h
  · simp [hinv.1.1 hsi]
  · rcases hinv.1.2 h hsi with hl | ⟨t, ht, hl⟩ <;> simp [hl]

theorem C2_at_most_one_timer_witness :
    (runTrace initWorld
      [Event.changePrompt "premier essai",
       Event.submit (Except.ok "t1"),
       Event.poll (Except.ok ⟨"running", some (1/4), none, none⟩),
       Event.submit (Except.ok "t2"),
       Event.poll (Except.ok ⟨"running", some (1/2), none, none⟩)]).1.liveTimers.length ≤ 1 :=
  C2_at_most_one_timer _ ⟨_, rfl⟩

/-- C3: a generation submission with a non-blank prompt first sets
`taskId`, `taskStatus` and `generatedVideo` to `null` (in `submitPhase1`,
the batched updates preceding the POST), and the single POST request of
the submission is built from that cleared state, before any new task
state is stored. -/
theorem C3_submission_clears_state (w : World) (resp : Except (Option String) String)
    (hp : jsTrimEmpty w.comp.prompt = false) :
    (submitPhase1 w).comp.taskId = none ∧
    (submitPhase1 w).comp.taskStatus = none ∧
    (submitPhase1 w).comp.generatedVideo = none ∧
    (handleGenerateVideo w resp).2 =
      [Request.generateVideo (submitPhase1 w).comp.prompt
        (submitPhase1 w).comp.provider (submitPhase1 w).comp.settings] := by
  refine ⟨submitPhase1_comp_taskId w, submitPhase1_comp_taskStatus w,
    submitPhase1_comp_generatedVideo w, ?_⟩
  unfold handleGenerateVideo
  rcases resp with d | tid <;> simp [hp]

/-- A state mid-generation (previous task completed and rendered) used to
instantiate C3 on a resubmission. -/
def c3World : World :=
  (runTrace initWorld
    [Event.changePrompt "deuxième essai",
     Event.submit (Except.ok "t1"),
     Event.poll (Except.ok ⟨"completed", some 1, some ⟨"v1", "a.mp4"⟩, none⟩)]).1

theorem C3_submission_clears_state_witness :
    (submitPhase1 c3World).comp.taskId = none ∧
    (submitPhase1 c3World).comp.taskStatus = none ∧
    (submitPhase1 c3World).comp.generatedVideo = none ∧
    (handleGenerateVideo c3World (Except.ok "t2")).2 =
      [Request.generateVideo (submitPhase1 c3World).comp.prompt
        (submitPhase1 c3World).comp.provider (submitPhase1 c3World).comp.settings] :=
  C3_submission_clears_state c3World (Except.ok "t2") (by decide)

/-- A state actively polling task t1 (prompt set, submission accepted,
one successful pending poll): the failing input of C4. -/
def c4World : World :=
  (runTrace initWorld
    [Event.changePrompt "un paysage", Event.submit (Except.ok "t1"),
     Event.poll (Except.ok ⟨"pending", none, none, none⟩)]).1

/-- C4 is false of the program: at the failing input, a poll transport
error displays the error message in the error box and leaves `taskStatus`
unchanged — but the poll timer is NOT cleared.  The tick closure captured
the null `statusInterval` of its creation render, so the
`if (statusInterval)` teardown in the catch never executes: the timer
stays live, `statusInterval` stays set, and the next tick issues another
GET for the task, contradicting the teardown the claim (and the spec, and
the intent of the dead catch code) describes. -/
theorem C4_poll_error_timer_survives :
    renderErrorBox (step c4World (Event.poll (Except.error ()))).1.comp =
      some "Erreur lors de la vérification du statut de la génération" ∧
    (step c4World (Event.poll (Except.error ()))).1.comp.taskStatus =
      c4World.comp.taskStatus ∧
    (step c4World (Event.poll (Except.error ()))).1.liveTimers =
      c4World.liveTimers ∧
    c4World.liveTimers ≠ [] ∧
    (step c4World (Event.poll (Except.error ()))).1.comp.statusInterval ≠ none ∧
    (runTrace c4World
      [Event.poll (Except.error ()), Event.poll (Except.error ())]).2 =
      [Request.getStatus "t1", Request.getStatus "t1"] :=
  ⟨by decide, by decide, by decide, by decide, by decide, by decide⟩

/-- The scripted run of C5: submission, then polled statuses
`pending → running(0.3) → running(0.7) → completed(video_info)`. -/
def c5Events : List Event :=
  [Event.changePrompt "un chat sur la lune",
   Event.submit (Except.ok "t1"),
   Event.poll (Except.ok ⟨"pending", none, none, none⟩),
   Event.poll (Except.ok ⟨"running", some (3/10), none, none⟩),
   Event.poll (Except.ok ⟨"running", some (7/10), none, none⟩),
   Event.poll (Except.ok ⟨"completed", some 1, some ⟨"gen-1", "generated.mp4"⟩, none⟩)]

/-- C5: after the scripted sequence, the component ends with
`generatedVideo` equal to the `video_info` of the completed response,
renders it (the viewer receives its file id), the timer is gone, and any
further poll tick issues no request. -/
theorem C5_scripted_sequence :
    (runTrace initWorld c5Events).1.comp.generatedVideo =
      some ⟨"gen-1", "generated.mp4"⟩ ∧
    renderedVideoId (runTrace initWorld c5Events).1.comp = some "gen-1" ∧
    (runTrace initWorld c5Events).1.liveTimers = [] ∧
    ∀ r : Except Unit TaskStatus,
      (step (runTrace initWorld c5Events).1 (Event.poll r)).2 = [] := by
  have hl : (runTrace initWorld c5Events).1.liveTimers = [] := by decide
  refine ⟨by decide, by decide, hl, ?_⟩
  intro r
  simp [step, hl]

theorem C5_scripted_sequence_witness :
    (step (runTrace initWorld c5Events).1
      (Event.poll (Except.ok ⟨"completed", some 1, some ⟨"gen-1", "generated.mp4"⟩, none⟩))).2
      = [] :=
  C5_scripted_sequence.2.2.2 _

/-- C6: an actual change of the generation provider replaces `settings`
wholesale by the template object of that provider — exactly its fields and
default values, independently of whatever settings were stored before. -/
theorem C6_provider_change_resets_settings (w : World) (p : String) (tpl : Settings)
    (hp : p ≠ w.comp.provider) (htpl : settingsTemplates p = some tpl) :
    (handleProviderChange w p).comp.settings = tpl := by
  unfold handleProviderChange
  simp [hp, htpl]

theorem C6_provider_change_resets_settings_witness :
    (handleProviderChange (updateSetting initWorld "fps" 30) "stability").comp.settings
      = stabilityTemplate :=
  C6_provider_change_resets_settings _ "stability" stabilityTemplate
    (by decide) rfl

/-- C7: a submission whose prompt is empty or whitespace-only issues no
network request, neither in `AIModal.handleSubmit` nor in
`VideoGenerator.handleGenerateVideo`. -/
theorem C7_blank_prompt_no_request (w : World) (ms : ModalState)
    (r1 r2 : Except (Option String) String)
    (h1 : jsTrimEmpty w.comp.prompt = true) (h2 : jsTrimEmpty ms.prompt = true) :
    (handleGenerateVideo w r1).2 = [] ∧ (modalHandleSubmit ms r2).2 = [] := by
  constructor
  · unfold handleGenerateVideo
    simp [h1]
  · unfold modalHandleSubmit
    simp [h2]

theorem C7_blank_prompt_no_request_witness :
    (handleGenerateVideo
      { initWorld with comp := { initComp with prompt := "  \t " } }
      (Except.ok "t1")).2 = [] ∧
    (modalHandleSubmit { modalInit with prompt := " " } (Except.ok "ok")).2 = [] :=
  C7_blank_prompt_no_request _ _ _ _ (by decide) (by decide)

/-- C8: a selected file whose declared MIME type does not start with
`video/` triggers no upload request, and the validation message is set
and rendered in the error box. -/
theorem C8_nonvideo_file_rejected (ms : ModalState) (f : JSFile)
    (resp : Except Unit VideoInfo)
    (h : jsStartsWith f.type "video/" = false) :
    (modalHandleVideoUpload ms (some f) resp).2 = [] ∧
    (modalHandleVideoUpload ms (some f) resp).1.error =
      "Veuillez sélectionner un fichier vidéo valide." ∧
    modalRenderErrorBox (modalHandleVideoUpload ms (some f) resp).1 =
      some "Veuillez sélectionner un fichier vidéo valide." := by
  unfold modalHandleVideoUpload modalRenderErrorBox
  simp [h]

theorem C8_nonvideo_file_rejected_witness :
    (modalHandleVideoUpload modalInit (some ⟨"doc.pdf", "application/pdf"⟩)
      (Except.ok ⟨"f1", "doc.pdf"⟩)).2 = [] ∧
    (modalHandleVideoUpload modalInit (some ⟨"doc.pdf", "application/pdf"⟩)
      (Except.ok ⟨"f1", "doc.pdf"⟩)).1.error =
      "Veuillez sélectionner un fichier vidéo valide." ∧
    modalRenderErrorBox (modalHandleVideoUpload modalInit
      (some ⟨"doc.pdf", "application/pdf"⟩) (Except.ok ⟨"f1", "doc.pdf"⟩)).1 =
      some "Veuillez sélectionner un fichier vidéo valide." :=
  C8_nonvideo_file_rejected modalInit ⟨"doc.pdf", "application/pdf"⟩ _ (by decide)

/-- C9: server-reported domain failures are passed through verbatim to
the user-visible display: a non-empty `detail` of a failed prompt
submission is shown (prefixed by the fixed label), and the non-empty
`error` of a polled `failed` status is stored and rendered (prefixed by
the fixed label). -/
theorem C9_server_messages_verbatim
    (ms : ModalState) (d : String)
    (hm : jsTrimEmpty ms.prompt = false) (hd : d ≠ "")
    (w : World) (tid : String) (ts : TaskStatus) (e : String)
    (hlt : w.liveTimers ≠ []) (htid : w.comp.taskId = some tid)
    (hst : ts.status = "failed") (herr : ts.error = some e) (he : e ≠ "") :
    (modalHandleSubmit ms (Except.error (some d))).1.error = "Erreur: " ++ d ∧
    modalRenderErrorBox (modalHandleSubmit ms (Except.error (some d))).1 =
      some ("Erreur: " ++ d) ∧
    (step w (Event.poll (Except.ok ts))).1.comp.taskStatus = some ts ∧
    renderFailedError (step w (Event.poll (Except.ok ts))).1.comp =
      some ("Erreur: " ++ e) := by
  have hmsg : (modalHandleSubmit ms (Except.error (some d))).1.error = "Erreur: " ++ d := by
    unfold modalHandleSubmit jsStringOr
    rcases hv : ms.video with _ | v <;> simp [hm, hd, hv]
  have hne : ("Erreur: " ++ d) ≠ "" := string_append_ne_empty _ _ (by decide)
  obtain ⟨t, rest, hl⟩ : ∃ t rest, w.liveTimers = t :: rest := by
    rcases hlx : w.liveTimers with _ | ⟨t, rest⟩
    · exact absurd hlx hlt
    · exact ⟨t, rest, rfl⟩
  have hstep : (step w (Event.poll (Except.ok ts))).1 =
      taskStatusEffect { w with comp := { w.comp with taskStatus := some ts } } := by
    unfold step checkTaskStatus
    simp [hl]
  refine ⟨hmsg, ?_, ?_, ?_⟩
  · unfold modalRenderErrorBox
    rw [hmsg]
    simp [hne]
  · rw [hstep, taskStatusEffect_comp_taskStatus]
  · unfold renderFailedError
    rw [hstep, taskStatusEffect_comp_taskId, taskStatusEffect_comp_taskStatus]
    simp [htid, hst, herr, he]

/-- A state actively polling task t7, used to instantiate C9. -/
def c9World : World :=
  (runTrace initWorld
    [Event.changePrompt "une forêt", Event.submit (Except.ok "t7")]).1

theorem C9_server_messages_verbatim_witness :
    (modalHandleSubmit { modalInit with prompt := "bonjour" }
      (Except.error (some "model overloaded"))).1.error =
      "Erreur: " ++ "model overloaded" ∧
    modalRenderErrorBox (modalHandleSubmit { modalInit with prompt := "bonjour" }
      (Except.error (some "model overloaded"))).1 =
      some ("Erreur: " ++ "model overloaded") ∧
    (step c9World (Event.poll (Except.ok
      ⟨"failed", none, none, some "NSFW content detected"⟩))).1.comp.taskStatus =
      some ⟨"failed", none, none, some "NSFW content detected"⟩ ∧
    renderFailedError (step c9World (Event.poll (Except.ok
      ⟨"failed", none, none, some "NSFW content detected"⟩))).1.comp =
      some ("Erreur: " ++ "NSFW content detected") :=
  C9_server_messages_verbatim _ "model overloaded" (by decide) (by decide)
    c9World "t7" ⟨"failed", none, none, some "NSFW content detected"⟩
    "NSFW content detected" (by decide) (by decide) rfl rfl (by decide)

/-- C10: once the POST of a submission succeeds, `loading` is `true` and stays
`true` through every later event that is not a failed submission request
(in particular through `completed`/`failed` polls), keeping the generate
button and the inputs disabled; only a failed submission request resets
`loading` to `false`. -/
theorem C10_loading_never_reset (w : World) (tid : String)
    (hp : jsTrimEmpty w.comp.prompt = false) :
    (step w (Event.submit (Except.ok tid))).1.comp.loading = true ∧
    (∀ evs : List Event, evs.all (fun e => !submitFailed e) = true →
      (runTrace (step w (Event.submit (Except.ok tid))).1 evs).1.comp.loading = true ∧
      generateButtonDisabled
        (runTrace (step w (Event.submit (Except.ok tid))).1 evs).1.comp = true ∧
      generateInputsDisabled
        (runTrace (step w (Event.submit (Except.ok tid))).1 evs).1.comp = true) ∧
    (∀ d : Option String,
      (step w (Event.submit (Except.error d))).1.comp.loading = false) := by
  have h0 : (step w (Event.submit (Except.ok tid))).1.comp.loading = true := by
    unfold step handleGenerateVideo
    simp only [hp, Bool.false_eq_true, if_false]
    rw [taskIdEffect_comp_loading]
    simp [submitPhase1_comp_loading]
  refine ⟨h0, ?_, ?_⟩
  · intro evs hall
    have hl := runTrace_loading_preserved evs _ hall h0
    exact ⟨hl, by simp [generateButtonDisabled, hl], by simp [generateInputsDisabled, hl]⟩
  · intro d
    unfold step handleGenerateVideo
    simp [hp]

theorem C10_loading_never_reset_witness :
    (step { initWorld with comp := { initComp with prompt := "un chat" } }
      (Event.submit (Except.ok "t1"))).1.comp.loading = true ∧
    (runTrace (step { initWorld with comp := { initComp with prompt := "un chat" } }
        (Event.submit (Except.ok "t1"))).1
      [Event.poll (Except.ok ⟨"completed", some 1, some ⟨"v", "v.mp4"⟩, none⟩)]).1.comp.loading
      = true ∧
    (step { initWorld with comp := { initComp with prompt := "un chat" } }
      (Event.submit (Except.error (some "boom")))).1.comp.loading = false := by
  have h := C10_loading_never_reset
    { initWorld with comp := { initComp with prompt := "un chat" } } "t1" (by decide)
  exact ⟨h.1,
    (h.2.1 [Event.poll (Except.ok ⟨"completed", some 1, some ⟨"v", "v.mp4"⟩, none⟩)]
      (by decide)).1,
    h.2.2 (some "boom")⟩

end MagiUI
